import Mathlib

/-!
Verification development for the multilingual-translator front-end.

The file embeds, as executable Lean definitions, the behaviourally relevant
parts of the repository:

* the chunk-accumulation path of the recording controller
  (`ondataavailable`, lines 74-76, and the Blob finalization in
  `handleRecordingStop`, lines 92-95 of the translator page);
* the backend-response handling of the three submission paths
  (`handleRecordingStop`, `handleTranslate`, `handleFileUpload`);
* the translator-page state machine driven by user clicks, getUserMedia
  resolutions, animation frames and unmount (startRecording /
  stopRecording and the `useEffect([recording])` waveform visualizer);
* the authentication gate (`PrivateRoute.js`);
* the new-user profile record construction (`profile.js`).

Machine integers do not occur; audio bytes are modelled as `Nat`, chunk
payloads as `List Nat`, and JavaScript strings as `String` (or `List Char`
where character-level splitting matters).
-/

namespace Translator

/-! ## Chunk accumulation (translator page, lines 74-76 and 92-95)

`mediaRecorderRef.current.ondataavailable` pushes every nonempty chunk onto
`audioChunksRef.current`; `handleRecordingStop` builds one Blob from the
accumulated list, which concatenates the chunk bytes in list order. -/

/-- The `ondataavailable` handler: `if (event.data.size > 0)
audioChunksRef.current.push(event.data)`. -/
def ondataavailable (chunks : List (List Nat)) (data : List Nat) : List (List Nat) :=
  if 0 < data.length then chunks ++ [data] else chunks

/-- The chunk list accumulated over one recording, given the chunks in the
order the recorder delivered them (`audioChunksRef` starts at `[]`,
line 73). -/
def sessionChunks (delivered : List (List Nat)) : List (List Nat) :=
  delivered.foldl ondataavailable []

/-- The Blob built by `handleRecordingStop` (line 93): the chunks
concatenated in list order. -/
def recordingBlob (chunks : List (List Nat)) : List Nat :=
  chunks.flatten

theorem foldl_ondataavailable (ds : List (List Nat)) (acc : List (List Nat)) :
    ds.foldl ondataavailable acc = acc ++ ds.filter (fun d => decide (0 < d.length)) := by
  induction ds generalizing acc with
  | nil => simp
  | cons d ds ih =>
      by_cases h : 0 < d.length <;>
        simp [ondataavailable, h, ih, List.filter_cons]

theorem flatten_filter_nonempty (ds : List (List Nat)) :
    (ds.filter (fun d => decide (0 < d.length))).flatten = ds.flatten := by
  induction ds with
  | nil => rfl
  | cons d ds ih =>
      by_cases h : 0 < d.length
      · simp [List.filter_cons, h, ih]
      · have hnil : d = [] := by
          cases d with
          | nil => rfl
          | cons x xs => simp at h
        simp [List.filter_cons, h, hnil, ih]

/-- C3: chunks are accumulated in delivery order (the accumulated list is an
order-preserving sublist of the delivered list — only empty chunks are
dropped), and the finalized payload is the concatenation of the accumulated
chunks, which reproduces exactly the bytes of the delivered chunks in
delivery order. -/
theorem chunk_accumulation_preserves_order (delivered : List (List Nat)) :
    recordingBlob (sessionChunks delivered) = delivered.flatten ∧
    List.Sublist (sessionChunks delivered) delivered ∧
    sessionChunks delivered = delivered.filter (fun d => decide (0 < d.length)) := by
  have hfil : sessionChunks delivered
      = delivered.filter (fun d => decide (0 < d.length)) := by
    simpa using foldl_ondataavailable delivered []
  refine ⟨?_, ?_, hfil⟩
  · rw [recordingBlob, hfil, flatten_filter_nonempty]
  · rw [hfil]; exact List.filter_sublist delivered

/-! ## Backend submission handling (translator page, lines 92-187)

The component state relevant to the three submission paths, the JavaScript
truthiness conventions they rely on, and the handlers themselves.  React
`setState` calls on an unmounted component are no-ops, which `setSt`
captures with the `mounted` flag; the non-state side effects (issuing a
fetch, starting audio playback) happen regardless of mountedness and are
collected as `Action`s. -/

/-- React state of the translator page (the fields the handlers touch). -/
structure UiState where
  text : String := ""
  translatedText : String := ""
  displayedText : String := ""
  isTranslating : Bool := false
  recording : Bool := false
  uiError : String := ""
deriving DecidableEq

/-- A mounted-or-unmounted instance of the component. -/
structure Component where
  st : UiState
  mounted : Bool
deriving DecidableEq

/-- One React `setState` call: applied only while the component is
mounted. -/
def setSt (f : UiState → UiState) (c : Component) : Component :=
  if c.mounted then { c with st := f c.st } else c

/-- Non-state side effects of the handlers. -/
inductive Action where
  | request (endpoint : String)
  | play (url : String)
deriving DecidableEq

/-- Parsed JSON body of a backend response together with `response.ok`.
`none` models an absent field. -/
structure BackendResponse where
  ok : Bool
  audio_url : Option String
  respError : Option String
  transcription : Option String
  translated_text : Option String
deriving DecidableEq

/-- JavaScript truthiness of a possibly-absent string field
(`undefined` and `""` are falsy). -/
def truthy : Option String → Bool
  | none => false
  | some s => s != ""

/-- JavaScript `x || d` on a possibly-absent string field. -/
def jsOr (v : Option String) (d : String) : String :=
  match v with
  | none => d
  | some s => if s = "" then d else s

/-- JavaScript `String.prototype.trim`, modelled over the character list:
leading and trailing whitespace characters are removed. -/
def jsTrim (s : String) : String :=
  String.mk (((s.toList.dropWhile Char.isWhitespace).reverse.dropWhile
    Char.isWhitespace).reverse)

theorem setSt_mounted_true (f : UiState → UiState) (st : UiState) :
    setSt f ⟨st, true⟩ = ⟨f st, true⟩ := by
  simp [setSt]

theorem setSt_mounted_false (f : UiState → UiState) (st : UiState) :
    setSt f ⟨st, false⟩ = ⟨st, false⟩ := by
  simp [setSt]

/-- The state updates `handleRecordingStop` performs before awaiting the
fetch (lines 98-101). -/
def speechPre (c : Component) : Component :=
  setSt (fun s => { s with displayedText := "" })
    (setSt (fun s => { s with translatedText := "" })
      (setSt (fun s => { s with isTranslating := true })
        (setSt (fun s => { s with uiError := "" }) c)))

/-- The part of `handleRecordingStop` that runs when the fetch settles
(lines 106-117).  `Except.error ()` models a network failure or a body
that is not JSON (the `catch` branch). -/
def speechRespPhase (c : Component) (res : Except Unit BackendResponse) :
    Component × List Action :=
  match res with
  | .error _ =>
      (setSt (fun s => { s with isTranslating := false })
        (setSt (fun s => { s with uiError := "Connection error." }) c), [])
  | .ok r =>
      if r.ok && truthy r.audio_url then
        (setSt (fun s => { s with isTranslating := false })
          (setSt (fun s => { s with translatedText := jsOr r.transcription "" }) c),
         [Action.play (r.audio_url.getD "")])
      else
        (setSt (fun s => { s with isTranslating := false })
          (setSt (fun s => { s with uiError := jsOr r.respError "Failed to process speech." }) c),
         [])

/-- `handleRecordingStop` (lines 92-118): pre-phase, fetch to the
speech-to-speech endpoint, then the response phase. -/
def handleRecordingStop (c : Component) (res : Except Unit BackendResponse) :
    Component × List Action :=
  let c0 := speechPre c
  let out := speechRespPhase c0 res
  (out.1, Action.request "speech-to-speech" :: out.2)

/-- The part of `handleTranslate` that runs when the fetch settles
(lines 154-165). -/
def textRespPhase (c : Component) (res : Except Unit BackendResponse) :
    Component × List Action :=
  match res with
  | .error _ =>
      (setSt (fun s => { s with isTranslating := false })
        (setSt (fun s => { s with uiError := "Connection error." }) c), [])
  | .ok r =>
      if r.ok && truthy r.audio_url then
        (setSt (fun s => { s with isTranslating := false })
          (setSt (fun s => { s with translatedText := jsOr r.translated_text "" }) c),
         [Action.play (r.audio_url.getD "")])
      else
        (setSt (fun s => { s with isTranslating := false })
          (setSt (fun s => { s with uiError := jsOr r.respError "Translation failed." }) c),
         [])

/-- `handleTranslate` (lines 135-166): validation of the input text, the
pre-fetch state updates (lines 140-143), the fetch to the text-to-speech
endpoint, then the response phase. -/
def handleTranslate (c : Component) (res : Except Unit BackendResponse) :
    Component × List Action :=
  if jsTrim c.st.text = "" then
    (setSt (fun s => { s with uiError := "Please enter or record some text to translate." }) c,
     [])
  else
    let c0 := setSt (fun s => { s with displayedText := "" })
      (setSt (fun s => { s with translatedText := "" })
        (setSt (fun s => { s with isTranslating := true })
          (setSt (fun s => { s with uiError := "" }) c)))
    let out := textRespPhase c0 res
    (out.1, Action.request "text-to-speech" :: out.2)

/-- `handleFileUpload` (lines 168-187).  Note that, unlike the two other
paths, its success test reads only `data.audio_url` and never
`res.ok`. -/
def handleFileUpload (c : Component) (file : Option Unit)
    (res : Except Unit BackendResponse) : Component × List Action :=
  match file with
  | none => (c, [])
  | some _ =>
      match res with
      | .error _ =>
          (setSt (fun s => { s with uiError := "Connection error." }) c,
           [Action.request "speech-to-speech"])
      | .ok r =>
          if truthy r.audio_url then
            (setSt (fun s => { s with translatedText := jsOr r.transcription "" }) c,
             [Action.request "speech-to-speech", Action.play (r.audio_url.getD "")])
          else
            (setSt (fun s => { s with uiError := jsOr r.respError "Failed to process audio file." }) c,
             [Action.request "speech-to-speech"])

/-- Whether an action list starts audio playback. -/
def hasPlay (l : List Action) : Bool :=
  l.any fun a =>
    match a with
    | .play _ => true
    | _ => false

/-- C4: for a speech or text submission whose response lacks a truthy
`audio_url` or has a non-success status, the handler surfaces the
response's `error` string (or the path's default message) and attempts no
playback; a network failure surfaces "Connection error."; in every failure
case `isTranslating` is reset to `false` and the rest of the session state
(`recording`, the input text) is untouched. -/
theorem backend_failure_surfaces_error (c : Component) (r : BackendResponse)
    (hm : c.mounted = true)
    (hf : ¬ (r.ok = true ∧ truthy r.audio_url = true))
    (ht : ¬ jsTrim c.st.text = "") :
    (handleRecordingStop c (.ok r)).2 = [Action.request "speech-to-speech"] ∧
    (handleRecordingStop c (.ok r)).1.st.uiError = jsOr r.respError "Failed to process speech." ∧
    (handleRecordingStop c (.ok r)).1.st.isTranslating = false ∧
    (handleRecordingStop c (.ok r)).1.st.recording = c.st.recording ∧
    (handleRecordingStop c (.ok r)).1.st.text = c.st.text ∧
    (handleRecordingStop c (Except.error ())).2 = [Action.request "speech-to-speech"] ∧
    (handleRecordingStop c (Except.error ())).1.st.uiError = "Connection error." ∧
    (handleRecordingStop c (Except.error ())).1.st.isTranslating = false ∧
    (handleRecordingStop c (Except.error ())).1.st.recording = c.st.recording ∧
    (handleTranslate c (.ok r)).2 = [Action.request "text-to-speech"] ∧
    (handleTranslate c (.ok r)).1.st.uiError = jsOr r.respError "Translation failed." ∧
    (handleTranslate c (.ok r)).1.st.isTranslating = false ∧
    (handleTranslate c (.ok r)).1.st.recording = c.st.recording ∧
    (handleTranslate c (Except.error ())).1.st.uiError = "Connection error." ∧
    (handleTranslate c (Except.error ())).1.st.isTranslating = false := by
  obtain ⟨st, m⟩ := c
  simp only at hm ht
  subst hm
  have hb : (r.ok && truthy r.audio_url) = false := by
    cases h1 : r.ok <;> cases h2 : truthy r.audio_url <;> simp_all
  simp [handleRecordingStop, speechPre, speechRespPhase, handleTranslate,
    textRespPhase, setSt_mounted_true, hb, ht]

/-- Concrete component and failure response exercising C4. -/
def c4comp : Component := ⟨{ text := "hello" }, true⟩

/-- A non-success backend response carrying an `error` string. -/
def c4resp : BackendResponse := ⟨false, none, some "boom", none, none⟩

theorem backend_failure_surfaces_error_witness :
    c4comp.mounted = true ∧
    ¬ (c4resp.ok = true ∧ truthy c4resp.audio_url = true) ∧
    ¬ jsTrim c4comp.st.text = "" ∧
    ((handleRecordingStop c4comp (.ok c4resp)).2 = [Action.request "speech-to-speech"] ∧
     (handleRecordingStop c4comp (.ok c4resp)).1.st.uiError = jsOr c4resp.respError "Failed to process speech." ∧
     (handleRecordingStop c4comp (.ok c4resp)).1.st.isTranslating = false ∧
     (handleRecordingStop c4comp (.ok c4resp)).1.st.recording = c4comp.st.recording ∧
     (handleRecordingStop c4comp (.ok c4resp)).1.st.text = c4comp.st.text ∧
     (handleRecordingStop c4comp (Except.error ())).2 = [Action.request "speech-to-speech"] ∧
     (handleRecordingStop c4comp (Except.error ())).1.st.uiError = "Connection error." ∧
     (handleRecordingStop c4comp (Except.error ())).1.st.isTranslating = false ∧
     (handleRecordingStop c4comp (Except.error ())).1.st.recording = c4comp.st.recording ∧
     (handleTranslate c4comp (.ok c4resp)).2 = [Action.request "text-to-speech"] ∧
     (handleTranslate c4comp (.ok c4resp)).1.st.uiError = jsOr c4resp.respError "Translation failed." ∧
     (handleTranslate c4comp (.ok c4resp)).1.st.isTranslating = false ∧
     (handleTranslate c4comp (.ok c4resp)).1.st.recording = c4comp.st.recording ∧
     (handleTranslate c4comp (Except.error ())).1.st.uiError = "Connection error." ∧
     (handleTranslate c4comp (Except.error ())).1.st.isTranslating = false) :=
  ⟨rfl, by decide, by decide,
   backend_failure_surfaces_error c4comp c4resp rfl (by decide) (by decide)⟩

/-- Unmounted component for C7. -/
def c7comp : Component := ⟨{ text := "hi", isTranslating := true }, false⟩

/-- A success response (status ok, truthy `audio_url`) for C7. -/
def c7resp : BackendResponse := ⟨true, some "u", none, some "hola", none⟩

/-- C7 counterexample: a success response delivered after the view has
unmounted is NOT processed as a no-op — while every state update is
discarded, the handler still constructs an `Audio` element and starts
playback (line 109-110), an observable side effect. -/
theorem play_still_fires_after_unmount :
    (speechRespPhase c7comp (.ok c7resp)).2 = [Action.play "u"] ∧
    (speechRespPhase c7comp (.ok c7resp)).1 = c7comp := by decide

/-- C7 (amended): a response delivered after unmount leaves the component
state exactly unchanged (every `setState` is a no-op) and is handled
totally (no crash), on both the speech and the text path; the only side
effect that can still occur is the playback action of a success
response. -/
theorem unmounted_delivery_discards_state (st : UiState)
    (res : Except Unit BackendResponse) :
    (speechRespPhase ⟨st, false⟩ res).1 = ⟨st, false⟩ ∧
    (textRespPhase ⟨st, false⟩ res).1 = ⟨st, false⟩ ∧
    ((speechRespPhase ⟨st, false⟩ res).2 = [] ∨
      ∃ u, (speechRespPhase ⟨st, false⟩ res).2 = [Action.play u]) ∧
    ((textRespPhase ⟨st, false⟩ res).2 = [] ∨
      ∃ u, (textRespPhase ⟨st, false⟩ res).2 = [Action.play u]) := by
  cases res with
  | error e =>
      simp [speechRespPhase, textRespPhase, setSt_mounted_false]
  | ok r =>
      by_cases hb : (r.ok && truthy r.audio_url) = true <;>
        simp [speechRespPhase, textRespPhase, setSt_mounted_false, hb]

/-- C8: an empty or whitespace-only input text blocks `handleTranslate`
locally: a validation message is surfaced, no backend request and no
playback is issued, and the translation state (`translatedText`,
`displayedText`, `isTranslating`, `recording`) is unchanged. -/
theorem empty_text_blocks_translate (c : Component)
    (res : Except Unit BackendResponse)
    (hm : c.mounted = true) (ht : jsTrim c.st.text = "") :
    (handleTranslate c res).2 = [] ∧
    (handleTranslate c res).1.st.uiError = "Please enter or record some text to translate." ∧
    (handleTranslate c res).1.st.translatedText = c.st.translatedText ∧
    (handleTranslate c res).1.st.displayedText = c.st.displayedText ∧
    (handleTranslate c res).1.st.isTranslating = c.st.isTranslating ∧
    (handleTranslate c res).1.st.recording = c.st.recording := by
  obtain ⟨st, m⟩ := c
  simp only at hm ht
  subst hm
  simp [handleTranslate, ht, setSt_mounted_true]

/-- Whitespace-only input component for C8. -/
def c8comp : Component := ⟨{ text := "   " }, true⟩

theorem empty_text_blocks_translate_witness :
    c8comp.mounted = true ∧
    jsTrim c8comp.st.text = "" ∧
    ((handleTranslate c8comp (Except.error ())).2 = [] ∧
     (handleTranslate c8comp (Except.error ())).1.st.uiError = "Please enter or record some text to translate." ∧
     (handleTranslate c8comp (Except.error ())).1.st.translatedText = c8comp.st.translatedText ∧
     (handleTranslate c8comp (Except.error ())).1.st.displayedText = c8comp.st.displayedText ∧
     (handleTranslate c8comp (Except.error ())).1.st.isTranslating = c8comp.st.isTranslating ∧
     (handleTranslate c8comp (Except.error ())).1.st.recording = c8comp.st.recording) :=
  ⟨rfl, by decide,
   empty_text_blocks_translate c8comp (Except.error ()) rfl (by decide)⟩

/-- C9: the file-upload path plays the returned audio exactly when the
parsed body has a truthy `audio_url`, regardless of the HTTP status, while
the recording and text paths additionally require `response.ok`; hence a
non-success response carrying `audio_url` is played by the upload path and
no error is shown there (the error message is left untouched), whereas the
same response makes the recording path show an error. -/
theorem upload_plays_regardless_of_status (c : Component) (r : BackendResponse)
    (hm : c.mounted = true) (ht : ¬ jsTrim c.st.text = "") :
    hasPlay (handleFileUpload c (some ()) (.ok r)).2 = truthy r.audio_url ∧
    hasPlay (handleRecordingStop c (.ok r)).2 = (r.ok && truthy r.audio_url) ∧
    hasPlay (handleTranslate c (.ok r)).2 = (r.ok && truthy r.audio_url) ∧
    (r.ok = false → truthy r.audio_url = true →
      (handleFileUpload c (some ()) (.ok r)).1.st.uiError = c.st.uiError ∧
      (handleRecordingStop c (.ok r)).1.st.uiError = jsOr r.respError "Failed to process speech.") := by
  obtain ⟨st, m⟩ := c
  simp only at hm ht
  subst hm
  refine ⟨?_, ?_, ?_, ?_⟩
  · by_cases hu : truthy r.audio_url = true <;>
      simp [handleFileUpload, hasPlay, setSt_mounted_true, hu]
  · by_cases hb : (r.ok && truthy r.audio_url) = true <;>
      simp [handleRecordingStop, speechPre, speechRespPhase, hasPlay,
        setSt_mounted_true, hb]
  · by_cases hb : (r.ok && truthy r.audio_url) = true <;>
      simp [handleTranslate, textRespPhase, hasPlay, setSt_mounted_true, ht, hb]
  · intro hok hu
    have hb : (r.ok && truthy r.audio_url) = false := by simp [hok]
    simp [handleFileUpload, handleRecordingStop, speechPre, speechRespPhase,
      setSt_mounted_true, hu, hb, hok]

/-- Component for the C9 witness. -/
def c9comp : Component := ⟨{ text := "x" }, true⟩

/-- A non-success backend response that still carries `audio_url`. -/
def c9resp : BackendResponse := ⟨false, some "u2", none, none, none⟩

theorem upload_plays_regardless_of_status_witness :
    c9comp.mounted = true ∧
    ¬ jsTrim c9comp.st.text = "" ∧
    (hasPlay (handleFileUpload c9comp (some ()) (.ok c9resp)).2 = truthy c9resp.audio_url ∧
     hasPlay (handleRecordingStop c9comp (.ok c9resp)).2 = (c9resp.ok && truthy c9resp.audio_url) ∧
     hasPlay (handleTranslate c9comp (.ok c9resp)).2 = (c9resp.ok && truthy c9resp.audio_url) ∧
     (c9resp.ok = false → truthy c9resp.audio_url = true →
       (handleFileUpload c9comp (some ()) (.ok c9resp)).1.st.uiError = c9comp.st.uiError ∧
       (handleRecordingStop c9comp (.ok c9resp)).1.st.uiError = jsOr c9resp.respError "Failed to process speech.")) :=
  ⟨rfl, by decide,
   upload_plays_regardless_of_status c9comp c9resp rfl (by decide)⟩

/-! ## Recording session and waveform visualizer state machine
(translator page, lines 64-90 and 189-256)

The machine tracks the React `recording` flag, the refs
(`mediaRecorderRef`, `audioChunksRef`, `audioContextRef`, `analyserRef`,
`animationIdRef`) and the observable effects of the
`useEffect([recording])` waveform visualizer: every `MediaRecorder` ever
created with its capture state, every `AudioContext` id ever closed, the
set of currently scheduled `requestAnimationFrame` callbacks, the number
of `drawWaveform` invocations (each performs canvas drawing, starting
with the `clearRect` on line 222) and the number of uncaught exceptions
thrown inside frame callbacks.

Events are the points where control enters the component: clicks on the
two buttons (the mic button is rendered only while `recording` is false
and the stop button only while it is true, lines 335-343), delivery of a
recorder data chunk, settlement of one of the visualizer `getUserMedia`
promises, an animation-frame tick, and unmount.  React effect semantics:
on every change of `recording` the cleanup of the previously executed
effect body runs first (only a body that ran with `recording = true`
returns a cleanup — the `recording = false` body returns early, line 203),
then the new body runs; the cleanup also runs on unmount. -/

/-- One `MediaRecorder`: its identity and whether it is currently
capturing (`state === "recording"`). -/
structure MRec where
  rid : Nat
  active : Bool
deriving DecidableEq

/-- Full machine state of the translator page's recording/visualizer
slice. -/
structure TState where
  mounted : Bool := true
  recording : Bool := false
  tsError : String := ""
  recorders : List MRec := []
  currentRec : Option Nat := none
  chunks : List (List Nat) := []
  alerts : List String := []
  ctx : Option Nat := none
  analyserSet : Bool := false
  vizPending : List Nat := []
  animRef : Option Nat := none
  scheduled : List Nat := []
  nextCtx : Nat := 0
  nextAnim : Nat := 0
  nextRec : Nat := 0
  draws : Nat := 0
  uncaught : Nat := 0
  closes : List Nat := []
  lastCleanup : Bool := false
deriving DecidableEq

/-- The initial state: mounted, idle, no resources held. -/
def initT : TState := {}

/-- React `setError` on the page (a plain state write while mounted). -/
def setErrorT (m : String) (s : TState) : TState :=
  if s.mounted then { s with tsError := m } else s

/-- The cleanup returned by the effect body that ran with
`recording = true` (lines 247-255): cancel the animation frame tracked by
`animationIdRef`, and close the `AudioContext` if the ref is still set,
nulling `audioContextRef`, `analyserRef` and `sourceRef`.  The null check
before closing makes the release idempotent: a second run finds the ref
null and closes nothing. -/
def vizCleanup (s : TState) : TState :=
  let s1 := match s.animRef with
    | some a => { s with scheduled := s.scheduled.erase a }
    | none => s
  match s1.ctx with
  | some h =>
      { s1 with closes := s1.closes ++ [h], ctx := none, analyserSet := false }
  | none => s1

/-- The effect body for `recording = false` (lines 190-203): the same
cancel-and-close sequence (plus a canvas clear, not tracked), then an
early return — this body returns no cleanup. -/
def vizBodyOff (s : TState) : TState :=
  vizCleanup s

/-- The effect body for `recording = true` (lines 206-245 up to the
asynchronous part): create a fresh `AudioContext` and issue the
visualizer's own `getUserMedia` request, which stays pending until the
environment settles it. -/
def vizBodyOn (s : TState) : TState :=
  { s with ctx := some s.nextCtx, vizPending := s.vizPending ++ [s.nextCtx],
           nextCtx := s.nextCtx + 1 }

/-- React `setRecording`: a no-op when unmounted or when the value is
unchanged; otherwise the state flips and the `useEffect([recording])`
machinery runs (previous cleanup, then the new body). -/
def setRecordingT (b : Bool) (s : TState) : TState :=
  if s.mounted = false then s
  else if s.recording = b then s
  else
    let s1 := { s with recording := b }
    let s2 := if s1.lastCleanup then vizCleanup s1 else s1
    if b then { vizBodyOn s2 with lastCleanup := true }
    else { vizBodyOff s2 with lastCleanup := false }

/-- How the environment answers `startRecording`'s capability check and
`getUserMedia` call. -/
inductive StartOutcome
  | unsupported
  | denied (msg : String)
  | granted
deriving DecidableEq

/-- Events that enter the component. -/
inductive TEv
  | clickMic (o : StartOutcome)
  | clickStop
  | dataAvail (bytes : List Nat)
  | vizGum (h : Nat) (ok : Bool)
  | frame
  | unmount
deriving DecidableEq

/-- `startRecording` (lines 64-83), reached through the mic button, which
is rendered only while `recording` is false.  It clears the error, then
either alerts (no capture support), surfaces an inline error (permission
denied), or creates and starts a fresh `MediaRecorder`, resets the chunk
list and sets `recording` to true. -/
def stepMic (o : StartOutcome) (s : TState) : TState :=
  if s.mounted = false ∨ s.recording = true then s
  else
    let s0 := setErrorT "" s
    match o with
    | .unsupported =>
        { s0 with alerts := s0.alerts ++ ["Audio recording not supported in this browser."] }
    | .denied m =>
        setErrorT ("Microphone access denied or error: " ++ m) s0
    | .granted =>
        let s1 := { s0 with recorders := s0.recorders ++ [⟨s0.nextRec, true⟩],
                            currentRec := some s0.nextRec,
                            nextRec := s0.nextRec + 1,
                            chunks := [] }
        setRecordingT true s1

/-- `stopRecording` (lines 85-90), reached through the stop button, which
is rendered only while `recording` is true: stop the current recorder and
set `recording` to false. -/
def stepStop (s : TState) : TState :=
  if s.mounted = false ∨ s.recording = false then s
  else
    match s.currentRec with
    | none => s
    | some i =>
        let s1 := { s with recorders := s.recorders.map fun r =>
          if r.rid = i then { r with active := false } else r }
        setRecordingT false s1

/-- `ondataavailable` (lines 74-76): some capturing recorder delivers a
chunk; a nonempty chunk is pushed onto the shared `audioChunksRef`. -/
def stepData (bytes : List Nat) (s : TState) : TState :=
  if s.recorders.any (fun r => r.active) then
    if 0 < bytes.length then { s with chunks := s.chunks ++ [bytes] } else s
  else s

/-- Settlement of one of the visualizer's `getUserMedia` promises
(lines 212-245).  The `.then` callback reads the CURRENT
`audioContextRef`: on success with an open context it attaches a source
and analyser and starts `drawWaveform` (one immediate invocation, then a
scheduled frame); on success with a nulled context the callback throws,
which the `.catch` turns into an inline error and `setRecording(false)`;
on rejection the `.catch` does the same.  Neither catch path stops the
`MediaRecorder`. -/
def stepGum (h : Nat) (ok : Bool) (s : TState) : TState :=
  if h ∈ s.vizPending then
    let s0 := { s with vizPending := s.vizPending.erase h }
    if ok then
      match s0.ctx with
      | some _ =>
          let s1 := { s0 with analyserSet := true, draws := s0.draws + 1 }
          { s1 with scheduled := s1.scheduled ++ [s1.nextAnim],
                    animRef := some s1.nextAnim,
                    nextAnim := s1.nextAnim + 1 }
      | none =>
          setRecordingT false
            (setErrorT "Mic access denied or error: cannot read null context" s0)
    else
      setRecordingT false
        (setErrorT "Mic access denied or error: rejected" s0)
  else s

/-- One scheduled `drawWaveform` callback fires (lines 221-239): it always
begins with canvas drawing (`clearRect`, line 222), then reads
`analyserRef.current` (line 223) — if teardown has nulled the ref the
callback throws an uncaught TypeError and does not reschedule; otherwise
it paints the trace and reschedules itself, updating
`animationIdRef`. -/
def fireFrameCallback (s : TState) : TState :=
  let s1 := { s with draws := s.draws + 1 }
  if s1.analyserSet then
    { s1 with scheduled := s1.scheduled ++ [s1.nextAnim],
              animRef := some s1.nextAnim,
              nextAnim := s1.nextAnim + 1 }
  else { s1 with uncaught := s1.uncaught + 1 }

/-- One animation-frame tick: every callback scheduled before the tick
fires, in schedule order; callbacks scheduled during the tick run at the
next tick. -/
def stepFrame (s : TState) : TState :=
  s.scheduled.foldl (fun acc _ => fireFrameCallback acc) { s with scheduled := [] }

/-- Unmount: React runs the pending effect cleanup (if the last body
returned one); afterwards all `setState` calls are no-ops. -/
def stepUnmount (s : TState) : TState :=
  if s.mounted then
    let s1 := if s.lastCleanup then vizCleanup s else s
    { s1 with mounted := false }
  else s

/-- The step function of the translator-page machine. -/
def stepT : TEv → TState → TState
  | .clickMic o => stepMic o
  | .clickStop => stepStop
  | .dataAvail b => stepData b
  | .vizGum h ok => stepGum h ok
  | .frame => stepFrame
  | .unmount => stepUnmount

/-- Run a trace of events from the initial state. -/
def runT (es : List TEv) : TState :=
  es.foldl (fun s e => stepT e s) initT

/-- A stop-and-restart with a slow first visualizer `getUserMedia`: start,
stop, start again, then the first (now stale) `getUserMedia` resolves,
then the second resolves, then stop. -/
def traceStaleGum : List TEv :=
  [.clickMic .granted, .clickStop, .clickMic .granted,
   .vizGum 0 true, .vizGum 1 true, .clickStop]

/-- C1 demonstrated failing: along `traceStaleGum` the session has left
the Recording state and teardown has run — both `AudioContext`s were
closed exactly once each, in order, so the handle-release half of the
claim holds — yet one `drawWaveform` callback is still scheduled, because
the stale `getUserMedia` resolution started a second animation chain and
the cleanup's single `cancelAnimationFrame` only cancelled the chain that
wrote `animationIdRef` last.  At the next animation-frame tick that
callback fires: it performs its canvas drawing and then throws an
uncaught TypeError on the nulled `analyserRef` — a further draw call
after the render loop was supposedly cancelled. -/
theorem draw_after_teardown_on_stale_gum :
    (runT traceStaleGum).recording = false ∧
    (runT traceStaleGum).ctx = none ∧
    (runT traceStaleGum).closes = [0, 1] ∧
    (runT traceStaleGum).scheduled = [0] ∧
    (stepT .frame (runT traceStaleGum)).draws = (runT traceStaleGum).draws + 1 ∧
    (stepT .frame (runT traceStaleGum)).uncaught = (runT traceStaleGum).uncaught + 1 := by
  decide

/-- A start whose visualizer `getUserMedia` is rejected, followed by a
second start. -/
def traceVizFail : List TEv :=
  [.clickMic .granted, .vizGum 0 false, .clickMic .granted]

/-- C2 demonstrated failing: the visualizer error path (lines 242-245)
runs `setRecording(false)` without stopping the `MediaRecorder`, so the
mic button reappears while the first recorder is still capturing; the
next start then creates a second recorder, and two `MediaRecorder`s are
simultaneously in the recording state — the prior session was not torn
down before the new acquisition. -/
theorem two_recorders_after_viz_failure :
    ((runT traceVizFail).recorders.filter (fun r => r.active)).length = 2 ∧
    (runT traceVizFail).recorders = [⟨0, true⟩, ⟨1, true⟩] ∧
    (runT traceVizFail).recording = true := by
  decide

/-- C5 counterexample: when the platform lacks capture support,
`startRecording` raises a blocking `alert` dialog (line 67) and leaves the
inline error message empty — the error is NOT surfaced as an inline
user-visible message, contradicting the claim for the
`DeviceUnavailable` case. -/
theorem unsupported_platform_alerts_not_inline :
    (runT [.clickMic .unsupported]).alerts
      = ["Audio recording not supported in this browser."] ∧
    (runT [.clickMic .unsupported]).tsError = "" ∧
    (runT [.clickMic .unsupported]).recording = false := by
  decide

/-- C5 (amended): on either `startRecording` failure the Session remains
Idle — `recording` stays false, no recorder is created, and the chunk
list is untouched — and the error is surfaced to the user: the
no-capture-support case through a blocking alert dialog (the inline
message is cleared), the permission-denied case through the inline error
message. -/
theorem start_failures_leave_session_idle (s : TState) (m : String)
    (hm : s.mounted = true) (hr : s.recording = false) :
    (stepT (.clickMic .unsupported) s).recording = false ∧
    (stepT (.clickMic .unsupported) s).chunks = s.chunks ∧
    (stepT (.clickMic .unsupported) s).recorders = s.recorders ∧
    (stepT (.clickMic .unsupported) s).alerts
      = s.alerts ++ ["Audio recording not supported in this browser."] ∧
    (stepT (.clickMic .unsupported) s).tsError = "" ∧
    (stepT (.clickMic (.denied m)) s).recording = false ∧
    (stepT (.clickMic (.denied m)) s).chunks = s.chunks ∧
    (stepT (.clickMic (.denied m)) s).recorders = s.recorders ∧
    (stepT (.clickMic (.denied m)) s).tsError
      = "Microphone access denied or error: " ++ m := by
  simp [stepT, stepMic, hm, hr, setErrorT]

theorem start_failures_leave_session_idle_witness :
    initT.mounted = true ∧ initT.recording = false ∧
    ((stepT (.clickMic .unsupported) initT).recording = false ∧
     (stepT (.clickMic .unsupported) initT).chunks = initT.chunks ∧
     (stepT (.clickMic .unsupported) initT).recorders = initT.recorders ∧
     (stepT (.clickMic .unsupported) initT).alerts
       = initT.alerts ++ ["Audio recording not supported in this browser."] ∧
     (stepT (.clickMic .unsupported) initT).tsError = "" ∧
     (stepT (.clickMic (.denied "x")) initT).recording = false ∧
     (stepT (.clickMic (.denied "x")) initT).chunks = initT.chunks ∧
     (stepT (.clickMic (.denied "x")) initT).recorders = initT.recorders ∧
     (stepT (.clickMic (.denied "x")) initT).tsError
       = "Microphone access denied or error: " ++ "x") :=
  ⟨rfl, rfl, start_failures_leave_session_idle initT "x" rfl rfl⟩

end Translator

namespace AuthGate

/-! ## Authentication gate (PrivateRoute.js)

The component keeps `user` (initially null) and `loading` (initially
true); the identity provider pushes the current identity through
`onAuthStateChanged`, whose callback stores it and clears `loading`.
The render (lines 18-19) shows a loading placeholder while `loading`,
redirects to the login route when `user` is null, and renders the
protected element otherwise. -/

/-- Gate component state: the stored identity (`none` is a null user) and
the loading flag. -/
structure GateState where
  user : Option Nat
  loading : Bool
deriving DecidableEq

/-- Initial state on mount: `useState(null)`, `useState(true)`. -/
def gateInit : GateState := ⟨none, true⟩

/-- The `onAuthStateChanged` callback (lines 10-13): store the pushed
identity and clear `loading`. -/
def onAuth (_s : GateState) (u : Option Nat) : GateState :=
  ⟨u, false⟩

/-- What the gate renders. -/
inductive GateRender
  | loadingView
  | redirectLogin
  | protectedView
deriving DecidableEq

/-- The render of `PrivateRoute` (lines 18-19). -/
def renderGate (s : GateState) : GateRender :=
  if s.loading then .loadingView
  else
    match s.user with
    | some _ => .protectedView
    | none => .redirectLogin

/-- The gate state after a sequence of provider pushes. -/
def gateRun (pushes : List (Option Nat)) : GateState :=
  pushes.foldl onAuth gateInit

/-- C6: before any provider push the gate renders the loading
placeholder; after any sequence of pushes ending in an authenticated
identity it renders the protected element; after any sequence ending in a
null identity — in particular when the identity becomes null while the
protected view is mounted — it redirects to the login route; and the
protected element is rendered only when loading has resolved to an
authenticated identity. -/
theorem gate_renders_by_identity (ps : List (Option Nat)) (i : Nat) :
    renderGate (gateRun []) = .loadingView ∧
    renderGate (gateRun (ps ++ [some i])) = .protectedView ∧
    renderGate (gateRun (ps ++ [none])) = .redirectLogin ∧
    (renderGate (gateRun ps) = .protectedView →
      (gateRun ps).loading = false ∧ (gateRun ps).user.isSome = true) := by
  refine ⟨by decide, ?_, ?_, ?_⟩
  · simp [gateRun, List.foldl_append, onAuth, renderGate]
  · simp [gateRun, List.foldl_append, onAuth, renderGate]
  · intro h
    unfold renderGate at h
    by_cases hl : (gateRun ps).loading
    · simp [hl] at h
    · cases hu : (gateRun ps).user with
      | none => simp [hl, hu] at h
      | some j => simp [hl, hu]

theorem gate_renders_by_identity_witness :
    (renderGate (gateRun [some 7]) = .protectedView →
      (gateRun [some 7]).loading = false ∧ (gateRun [some 7]).user.isSome = true) ∧
    ((gateRun [some 7]).loading = false ∧ (gateRun [some 7]).user.isSome = true) :=
  ⟨(gate_renders_by_identity [some 7] 7).2.2.2,
   (gate_renders_by_identity [some 7] 7).2.2.2 (by decide)⟩

end AuthGate

namespace Profile

/-! ## New-user profile record (profile.js, lines 14-27)

When the identity provider pushes an authenticated user and no Firestore
document exists for it, the page writes `{ email, firstName:
displayName.split(" ")[0], lastName: displayName.split(" ")[1] || "",
photo }`.  JavaScript `split(" ")` separates on single space characters
(producing empty fields around repeated separators), and calling it on a
null `displayName` throws a TypeError.  Display names are modelled as
character lists so the split is explicit. -/

/-- JavaScript `String.prototype.split` with a one-character separator
described by the predicate `p`: cut at every separator occurrence,
keeping empty fields. -/
def splitP (p : Char → Bool) : List Char → List (List Char)
  | [] => [[]]
  | c :: cs =>
      if p c then [] :: splitP p cs
      else
        match splitP p cs with
        | f :: r => (c :: f) :: r
        | [] => [[c]]

/-- `displayName.split(" ")`. -/
def splitSpace (cs : List Char) : List (List Char) :=
  splitP (fun c => c == ' ') cs

/-- The whitespace-separated words of a string (what the claim's wording
describes): maximal runs of non-whitespace characters. -/
def wsWords (cs : List Char) : List (List Char) :=
  (splitP (fun c => c.isWhitespace) cs).filter (fun w => !w.isEmpty)

/-- The record written to the `Users` collection. -/
structure UserData where
  email : String
  firstName : List Char
  lastName : List Char
  photo : String
deriving DecidableEq

/-- JavaScript indexing of a field list followed by `|| ""`: an absent
index (`undefined`) and an empty field both give the empty string. -/
def fieldAt (l : List (List Char)) (i : Nat) : List Char :=
  match l, i with
  | [], _ => []
  | f :: _, 0 => f
  | _ :: r, j + 1 => fieldAt r j

/-- The construction of the new-user record (lines 18-23).  A null
`displayName` makes `displayName.split` throw, modelled as
`Except.error`. -/
def mkUserData (email : String) (displayName : Option (List Char))
    (photo : String) : Except Unit UserData :=
  match displayName with
  | none => .error ()
  | some n => .ok ⟨email, fieldAt (splitSpace n) 0, fieldAt (splitSpace n) 1, photo⟩

/-- An authenticated identity as delivered by the provider. -/
structure AuthUser where
  email : String
  displayName : Option (List Char)
  photo : String
deriving DecidableEq

/-- Observable outcome of the profile page's `onAuthStateChanged`
handler. -/
inductive ProfileEffect
  | noUser
  | loaded (d : UserData)
  | written (d : UserData)
  | crash
deriving DecidableEq

/-- The `onAuthStateChanged` handler of the profile page (lines 9-29):
ignore a null user; show an existing document; otherwise build and write
the new record — or throw, if the display name is null. -/
def profileOnAuthStateChanged (store : Option UserData) (u : Option AuthUser) :
    ProfileEffect :=
  match u with
  | none => .noUser
  | some user =>
      match store with
      | some d => .loaded d
      | none =>
          match mkUserData user.email user.displayName user.photo with
          | .error _ => .crash
          | .ok d => .written d

theorem splitP_ne_nil (p : Char → Bool) (cs : List Char) :
    splitP p cs ≠ [] := by
  cases cs with
  | nil => simp [splitP]
  | cons c cs =>
      simp only [splitP]
      by_cases h : p c = true
      · simp [h]
      · simp only [h]
        cases hs : splitP p cs <;> simp

theorem splitSpace_field_zero (cs : List Char) :
    fieldAt (splitSpace cs) 0 = cs.takeWhile (fun c => c != ' ') := by
  induction cs with
  | nil => rfl
  | cons c cs ih =>
      simp only [splitSpace, splitP] at *
      by_cases h : (c == ' ') = true
      · have hc : c = ' ' := by simpa using h
        simp [h, hc, List.takeWhile_cons, fieldAt]
      · have hb : (c != ' ') = true := by simpa [bne] using h
        obtain ⟨f, r, hfr⟩ : ∃ f r, splitP (fun c => c == ' ') cs = f :: r := by
          cases hs : splitP (fun c => c == ' ') cs with
          | nil => exact absurd hs (splitP_ne_nil _ cs)
          | cons f r => exact ⟨f, r, rfl⟩
        rw [hfr] at ih
        simp only [fieldAt] at ih
        simp [h, hfr, List.takeWhile_cons, hb, fieldAt, ih]

theorem splitSpace_field_one (cs : List Char) :
    fieldAt (splitSpace cs) 1
      = ((cs.dropWhile (fun c => c != ' ')).drop 1).takeWhile (fun c => c != ' ') := by
  induction cs with
  | nil => rfl
  | cons c cs ih =>
      simp only [splitSpace, splitP] at *
      by_cases h : (c == ' ') = true
      · have hc : c = ' ' := by simpa using h
        have hz := splitSpace_field_zero cs
        simp only [splitSpace] at hz
        simp [h, hc, List.dropWhile_cons, fieldAt, hz]
      · have hb : (c != ' ') = true := by simpa [bne] using h
        obtain ⟨f, r, hfr⟩ : ∃ f r, splitP (fun c => c == ' ') cs = f :: r := by
          cases hs : splitP (fun c => c == ' ') cs with
          | nil => exact absurd hs (splitP_ne_nil _ cs)
          | cons f r => exact ⟨f, r, rfl⟩
        rw [hfr] at ih
        simp only [fieldAt] at ih
        simp [h, hfr, List.dropWhile_cons, hb, fieldAt, ih]

/-- The display name the claim and the code disagree on: two adjacent
spaces between the words. -/
def nameCX : List Char := "John  Smith".toList

/-- C10 counterexample: for the display name `"John  Smith"` the code
writes `lastName = ""` (JavaScript `split(" ")[1]` is the empty field
between the two spaces, and `"" || ""` is `""`), while the second
whitespace-separated word of the name — what the claim promises — is
`"Smith"`. -/
theorem profile_lastname_not_second_word :
    profileOnAuthStateChanged none (some ⟨"e@x", some nameCX, "p"⟩)
      = .written ⟨"e@x", "John".toList, [], "p"⟩ ∧
    fieldAt (wsWords nameCX) 1 = "Smith".toList ∧
    ([] : List Char) ≠ "Smith".toList := by
  decide

/-- C10 (amended): for a fresh authenticated identity with a non-null
display name the page writes a record whose `firstName` is the prefix of
the display name before the first space character (the whole name if
there is no space) and whose `lastName` is the segment between the first
and the second space character (empty when absent) — i.e. the fields of a
split on single spaces, not whitespace-separated words; a null display
name makes the handler throw instead of writing a record. -/
theorem profile_new_user_record (email photo : String) (n : List Char) :
    profileOnAuthStateChanged none (some ⟨email, some n, photo⟩)
      = .written ⟨email, n.takeWhile (fun c => c != ' '),
          ((n.dropWhile (fun c => c != ' ')).drop 1).takeWhile (fun c => c != ' '),
          photo⟩ ∧
    profileOnAuthStateChanged none (some ⟨email, none, photo⟩) = .crash := by
  constructor
  · simp [profileOnAuthStateChanged, mkUserData, splitSpace_field_zero,
      splitSpace_field_one]
  · rfl

end Profile
